import Mathlib

/-!
# AstroBot: the `/start` handler of `src/index.js`

A shallow embedding of the Telegram `bot.start` handler and of
`updateSessionStatus`.

Modelling decisions (all taken from the source):

* The handler is an `async` function that talks to three external
  operations: the operator lookup (`supabase.from('managers')…single()`),
  the session update (`supabase.from('auth_sessions').update(…).eq(…)`) and
  the reply-send (`ctx.reply` / `ctx.replyWithHTML`).  The handler is
  embedded as a tree of calls (`Prog`): every node is one external call
  together with the continuation that receives the call's outcome.  An
  outcome is either a value or a fault (a rejected promise).
* `await e` inside the `try` block sends a fault of `e` to the `catch`
  block.  `return e` (without `await`) hands the promise to the caller, so
  a fault of `e` rejects the handler's own promise, inside as well as
  outside the `try` block.  The `ctx.reply` of the `catch` block is neither
  awaited nor returned: the handler resolves whatever its outcome.
* JavaScript values whose type the source does not fix (`manager.id`,
  `manager.name`, `manager.status`) are `JsVal`; numbers are integers
  (`ctx.from.id` is a Telegram user id) and `${n}` is the decimal numeral
  of `n`; floating point is not modelled.
* A fault is a rejection of the promise returned by the external call; the
  datastore may also answer with an `error` object, which is a value.
* `console.log` / `console.error` are not modelled.
-/

namespace AstroBot

/-! ## JavaScript values -/

/-- The JavaScript values a datastore column can hold here. -/
inductive JsVal where
  | undefined
  | null
  | bool (b : Bool)
  | num (n : Int)
  | str (s : String)
  deriving DecidableEq

/-- JavaScript truthiness (`if (v)`): `undefined`, `null`, `false`, `0` and
the empty string are falsy. -/
def JsVal.truthy : JsVal → Bool
  | .undefined => false
  | .null => false
  | .bool b => b
  | .num n => n != 0
  | .str s => s != ""

/-- String conversion of a template literal, `${v}`. -/
def JsVal.toStr : JsVal → String
  | .undefined => "undefined"
  | .null => "null"
  | .bool b => if b then "true" else "false"
  | .num n => toString n
  | .str s => s

/-! ## Records exchanged with the outside -/

/-- The outcome of an awaited external call: a value, or a fault
(the promise rejects). -/
inductive Outcome (α : Type) where
  | ok (a : α)
  | fault
  deriving DecidableEq

/-- Whether the call faulted. -/
def Outcome.isFault {α : Type} : Outcome α → Bool
  | .ok _ => false
  | .fault => true

/-- The error object of a datastore response (`findError`, `error`). -/
structure DbError where
  code : String
  deriving DecidableEq

/-- A row of the `managers` table, as far as the handler reads it. -/
structure Manager where
  id : JsVal
  name : JsVal
  status : JsVal
  deriving DecidableEq

/-- The response of the operator lookup: `{ data, error }`. -/
structure LookupResult where
  data : Option Manager
  error : Option DbError
  deriving DecidableEq

/-- The response of the session update: `{ error }`. -/
structure UpdateResult where
  error : Option DbError
  deriving DecidableEq

/-- The object `updateData` built by `updateSessionStatus`; an absent key is
`none`. -/
structure UpdateData where
  status : String
  manager_id : Option JsVal
  telegram_id : Option JsVal
  deriving DecidableEq

/-- A reply: its text, and whether it is sent with `parse_mode: 'HTML'`
(`ctx.reply(text, { parse_mode: 'HTML' })` and `ctx.replyWithHTML(text)`). -/
structure Message where
  text : String
  html : Bool
  deriving DecidableEq

/-- The sender of the event, `ctx.from`. -/
structure From where
  id : Int
  username : Option String
  first_name : String
  last_name : Option String
  deriving DecidableEq

/-- The start event, `ctx`: the deep-link payload (`ctx.payload`, absent or
a string) and the sender. -/
structure Ctx where
  payload : Option String
  sender : From
  deriving DecidableEq

/-- How the handler's promise settles.  `resolved`: it resolves and nothing
is left pending.  `rejected`: it rejects, the fault reaches the caller.
`unhandled`: it resolves, and the reply started in the `catch` block
rejects with nobody awaiting it. -/
inductive Completion where
  | resolved
  | rejected
  | unhandled
  deriving DecidableEq

/-! ## The handler as a tree of external calls -/

/-- A computation that performs external calls. -/
inductive Prog where
  | lookup (telegramId : Int) (k : Outcome LookupResult → Prog)
  | update (sessionId : String) (updateData : UpdateData) (k : Outcome UpdateResult → Prog)
  | send (m : Message) (k : Outcome Unit → Prog)
  | done (c : Completion)

/-! ### The reply texts -/

/-- Line 26. -/
def greetingMsg : Message :=
  ⟨"👋 Привет! Этот бот — ключ от AstroPanel. Начните вход на сайте, чтобы использовать его.", false⟩

/-- Line 41. -/
def dbErrorMsg : Message :=
  ⟨"⚠️ Ошибка базы данных. Попробуйте позже.", false⟩

/-- Line 50. -/
def accessDeniedMsg : Message :=
  ⟨"⛔️ Ваш доступ заблокирован администратором.", false⟩

/-- Line 57. -/
def welcomeMsg (manager : Manager) : Message :=
  ⟨"✅ <b>Вход выполнен!</b>\n\nДобро пожаловать, " ++ manager.name.toStr
      ++ ".\nВы можете вернуться в браузер.", true⟩

/-- Line 59. -/
def sessionExpiredMsg : Message :=
  ⟨"⚠️ Не удалось обновить сессию. Возможно, она истекла. Обновите страницу в браузере.", false⟩

/-- Line 92. -/
def internalErrorMsg : Message :=
  ⟨"Произошла внутренняя ошибка бота.", false⟩

/-- Line 20: `ctx.from.username ? '@' + username : 'Без никнейма'`. -/
def usernameOf (sender : From) : String :=
  match sender.username with
  | some u => if u != "" then "@" ++ u else "Без никнейма"
  | none => "Без никнейма"

/-- Line 77: `ctx.from.last_name || ''`. -/
def lastNameOf (sender : From) : String :=
  match sender.last_name with
  | some l => l
  | none => ""

/-- Lines 69-85, up to the sender's id. -/
def adminMsgHead (sender : From) : String :=
  "\n⛔️ <b>Доступ не найден</b>\n\nВашего аккаунта нет в системе. Отправьте данные ниже администратору:\n\n----------------------------\n<b>Заявка на доступ:</b>\n\n👤 <b>ФИО:</b> "
    ++ sender.first_name ++ " " ++ lastNameOf sender
    ++ "\n📱 <b>Телефон:</b> (ваш номер)\n📧 <b>Email:</b> (ваша почта)\n🆔 <b>Telegram ID:</b> <code>"

/-- Lines 69-85, after the sender's id. -/
def adminMsgTail (sender : From) : String :=
  "</code>\n👤 <b>Ник:</b> " ++ usernameOf sender
    ++ "\n🎂 <b>Дата рождения:</b> (ДД.ММ.ГГГГ)\n📸 <b>Фото:</b> (прикрепите селфи)\n----------------------------\n      "

/-- Lines 69-87: the admin-request template, sent with `replyWithHTML`. -/
def adminMsg (sender : From) : Message :=
  ⟨adminMsgHead sender ++ toString sender.id ++ adminMsgTail sender, true⟩

/-! ### Control flow -/

/-- Lines 90-93: the `catch` block.  The reply is started and not awaited. -/
def catchBlock : Prog :=
  .send internalErrorMsg fun r =>
    match r with
    | .ok _ => .done .resolved
    | .fault => .done .unhandled

/-- The statement `return ctx.reply(m)`: the handler settles as the reply
does (lines 26, 41, 50). -/
def returnReply (m : Message) : Prog :=
  .send m fun r =>
    match r with
    | .ok _ => .done .resolved
    | .fault => .done .rejected

/-- The statement `await ctx.reply(m)` as last statement of the `try` block
(lines 57, 59, 87). -/
def awaitReply (m : Message) : Prog :=
  .send m fun r =>
    match r with
    | .ok _ => .done .resolved
    | .fault => catchBlock

/-- Lines 98-100: `{ status }`, then `manager_id` and `telegram_id` are added
when the argument is truthy. -/
def updateDataOf (status : String) (managerId tgId : JsVal) : UpdateData :=
  { status := status
    manager_id := if managerId.truthy then some managerId else none
    telegram_id := if tgId.truthy then some tgId else none }

/-- Lines 102-111: what `updateSessionStatus` makes of the datastore's
response: `false` when the response carries an error, `true` otherwise; a
fault of the awaited call is passed on (the function has no `try`). -/
def updateReturn (r : Outcome UpdateResult) : Outcome Bool :=
  match r with
  | .fault => .fault
  | .ok res =>
    match res.error with
    | some _ => .ok false
    | none => .ok true

/-- Lines 97-112, awaited inside the `try` block: one update call; `k`
receives the returned boolean, or the fault of the datastore call. -/
def updateSessionStatus (sessionId : String) (status : String) (managerId tgId : JsVal)
    (k : Outcome Bool → Prog) : Prog :=
  let updateData := updateDataOf status managerId tgId
  .update sessionId updateData fun r => k (updateReturn r)

/-- Line 39: `findError && findError.code !== 'PGRST116'`. -/
def lookupFault (findError : Option DbError) : Bool :=
  match findError with
  | some e => e.code != "PGRST116"
  | none => false

/-- Line 48: `manager.status === 'blocked' || manager.status === 'banned'`. -/
def isBlocked (manager : Manager) : Bool :=
  manager.status == .str "blocked" || manager.status == .str "banned"

/-- Lines 29-93: the `try` block with its `catch`. -/
def tryBlock (ctx : Ctx) (startPayload : String) : Prog :=
  let telegramId := ctx.sender.id
  .lookup telegramId fun r =>
    match r with
    | .fault => catchBlock
    | .ok res =>
      if lookupFault res.error then
        returnReply dbErrorMsg
      else
        match res.data with
        | some manager =>
          if isBlocked manager then
            updateSessionStatus startPayload "failed" .null .undefined fun u =>
              match u with
              | .fault => catchBlock
              | .ok _ => returnReply accessDeniedMsg
          else
            updateSessionStatus startPayload "success" manager.id (.num telegramId) fun u =>
              match u with
              | .fault => catchBlock
              | .ok updated =>
                if updated then awaitReply (welcomeMsg manager)
                else awaitReply sessionExpiredMsg
        | none =>
          updateSessionStatus startPayload "failed" .null .undefined fun u =>
            match u with
            | .fault => catchBlock
            | .ok _ => awaitReply (adminMsg ctx.sender)

/-- Lines 17-94: the handler passed to `bot.start`. -/
def handler (ctx : Ctx) : Prog :=
  match ctx.payload with
  | none => returnReply greetingMsg
  | some startPayload =>
    if startPayload = "" then returnReply greetingMsg
    else tryBlock ctx startPayload

/-! ## Running the handler against the outside world -/

/-- The outside world: each external operation maps the world's state and
the call's arguments to the next state and the call's outcome. -/
structure World (σ : Type) where
  lookup : σ → Int → σ × Outcome LookupResult
  update : σ → String → UpdateData → σ × Outcome UpdateResult
  send : σ → Message → σ × Outcome Unit

/-- An external call as the handler issued it. -/
inductive Call where
  | lookup (telegramId : Int)
  | update (sessionId : String) (updateData : UpdateData)
  | send (m : Message)
  deriving DecidableEq

/-- One entry of the trace: the call, and whether it faulted. -/
structure Step where
  call : Call
  faulted : Bool
  deriving DecidableEq

/-- The result of a run: final world state, the calls in order, and how the
handler's promise settled. -/
structure Run (σ : Type) where
  state : σ
  trace : List Step
  completion : Completion

/-- Run a computation against a world. -/
def Prog.run {σ : Type} (w : World σ) : Prog → σ → Run σ
  | .done c, s => ⟨s, [], c⟩
  | .lookup telegramId k, s =>
    let o := w.lookup s telegramId
    let rest := (k o.2).run w o.1
    ⟨rest.state, ⟨.lookup telegramId, o.2.isFault⟩ :: rest.trace, rest.completion⟩
  | .update sessionId updateData k, s =>
    let o := w.update s sessionId updateData
    let rest := (k o.2).run w o.1
    ⟨rest.state, ⟨.update sessionId updateData, o.2.isFault⟩ :: rest.trace, rest.completion⟩
  | .send m k, s =>
    let o := w.send s m
    let rest := (k o.2).run w o.1
    ⟨rest.state, ⟨.send m, o.2.isFault⟩ :: rest.trace, rest.completion⟩

/-- The session updates of a trace, in order. -/
def updatesOf : List Step → List (String × UpdateData)
  | [] => []
  | ⟨.update sid d, _⟩ :: t => (sid, d) :: updatesOf t
  | _ :: t => updatesOf t

/-- The replies of a trace, in order. -/
def sendsOf : List Step → List Message
  | [] => []
  | ⟨.send m, _⟩ :: t => m :: sendsOf t
  | _ :: t => sendsOf t

/-- The operator lookups of a trace, in order. -/
def lookupsOf : List Step → List Int
  | [] => []
  | ⟨.lookup tid, _⟩ :: t => tid :: lookupsOf t
  | _ :: t => lookupsOf t

/-- A world without state whose calls have fixed outcomes. -/
def constWorld (l : Outcome LookupResult) (u : Outcome UpdateResult) (r : Message → Outcome Unit) :
    World Unit where
  lookup := fun _ _ => ((), l)
  update := fun _ _ _ => ((), u)
  send := fun _ m => ((), r m)

/-- The text `sub` occurs in the text `s`. -/
def containsText (s sub : String) : Prop :=
  sub.data <:+: s.data

instance (s sub : String) : Decidable (containsText s sub) :=
  List.decidableInfix sub.data s.data

/-! ## An explicit session table -/

/-- A row of the `auth_sessions` table. -/
structure SessionRow where
  id : String
  status : String
  manager_id : Option JsVal
  telegram_id : Option JsVal
  deriving DecidableEq

/-- Modelled from the spec: the remote datastore's partial update of the
session rows matching an identifier (the datastore itself is an external
service, its code is not part of the repository).  The keys present in
`updateData` overwrite the row's columns, the other columns are kept
("update one session row by exact-match identifier, setting status and
optionally operator-reference/platform-identity fields"). -/
def applyUpdate (sessionId : String) (d : UpdateData) (rows : List SessionRow) : List SessionRow :=
  rows.map fun row =>
    if row.id = sessionId then
      { row with
        status := d.status
        manager_id := match d.manager_id with
          | some v => some v
          | none => row.manager_id
        telegram_id := match d.telegram_id with
          | some v => some v
          | none => row.telegram_id }
    else row

/-- Modelled from the spec: a world whose state is the session table.  The
operator table `ops` is read-only, a session update is applied to the table
and reports no error, the outcome of a reply is given by `out`. -/
def storeWorld (ops : Int → Outcome LookupResult) (out : Message → Outcome Unit) :
    World (List SessionRow) where
  lookup := fun rows tid => (rows, ops tid)
  update := fun rows sid d => (applyUpdate sid d rows, .ok ⟨none⟩)
  send := fun rows m => (rows, out m)

/-- The calls of a trace, in order. -/
def callsOf (t : List Step) : List Call :=
  t.map Step.call

/-- The calls that are awaited inside the `try` block: the operator lookup
(line 33), the session update (lines 49, 54, 66) and the three awaited
replies (lines 57, 59, 87). -/
def awaitedInTry : Call → Prop
  | .lookup _ => True
  | .update _ _ => True
  | .send m => m = sessionExpiredMsg ∨ (∃ manager, m = welcomeMsg manager) ∨ (∃ f, m = adminMsg f)

/-- The replies of a trace are one reply, or one reply whose send faulted
followed by the internal-error reply of the `catch` block. -/
def singleReply (t : List Step) : Prop :=
  (∃ m, sendsOf t = [m]) ∨
  (∃ m, sendsOf t = [m, internalErrorMsg] ∧ (⟨.send m, true⟩ : Step) ∈ t)

/-- The conditions under which line 54 is reached with operator row `m`:
the payload is non-empty, the lookup for the requester's id returned `m`
with no error other than PGRST116, and `m` is neither blocked nor banned. -/
def authorized {σ : Type} (w : World σ) (s : σ) (ctx : Ctx) (m : Manager) : Prop :=
  (∃ p, ctx.payload = some p ∧ p ≠ "") ∧
  (∃ e, (w.lookup s ctx.sender.id).2 = .ok ⟨some m, e⟩ ∧
    ∀ err, e = some err → err.code = "PGRST116") ∧
  m.status ≠ .str "blocked" ∧ m.status ≠ .str "banned"

/-! ## Concrete events used as examples -/

/-- Requester 777 opening the deep link of session `sess-123`. -/
def ctx777 : Ctx := ⟨some "sess-123", ⟨777, some "ana", "Ana", none⟩⟩

/-- Requester 555, who has no operator row. -/
def ctx555 : Ctx := ⟨some "sess-123", ⟨555, none, "Eve", none⟩⟩

/-- Requester 777 opening the bot without a deep link. -/
def ctxNoPayload : Ctx := ⟨none, ⟨777, some "ana", "Ana", none⟩⟩

/-- The operator row `{id: 9, name: "Ana", status: "active"}`. -/
def managerAna : Manager := ⟨.num 9, .str "Ana", .str "active"⟩

/-- An operator row whose id is `0`. -/
def managerZero : Manager := ⟨.num 0, .str "Zoe", .str "active"⟩

/-- A blocked operator row. -/
def managerBlocked : Manager := ⟨.num 4, .str "Bob", .str "blocked"⟩

/-- Every reply is delivered. -/
def allDelivered : Message → Outcome Unit := fun _ => .ok ()

/-- No reply is delivered. -/
def noneDelivered : Message → Outcome Unit := fun _ => .fault

/-- A session table with a pending session, a session already resolved with
linked operator and requester, and another session. -/
def rowsExample : List SessionRow :=
  [⟨"sess-123", "pending", none, none⟩, ⟨"sess-123", "success", some (.num 9), some (.num 777)⟩,
   ⟨"sess-9", "pending", none, none⟩]

/-! ## Running the nodes of the handler -/

/-- Running a lookup node. -/
theorem run_lookup {σ : Type} (w : World σ) (s : σ) (tid : Int) (k : Outcome LookupResult → Prog) :
    (Prog.lookup tid k).run w s =
      ⟨((k (w.lookup s tid).2).run w (w.lookup s tid).1).state,
        ⟨.lookup tid, (w.lookup s tid).2.isFault⟩ ::
          ((k (w.lookup s tid).2).run w (w.lookup s tid).1).trace,
        ((k (w.lookup s tid).2).run w (w.lookup s tid).1).completion⟩ := rfl

/-- The trace of `return ctx.reply(m)`. -/
@[simp]
theorem trace_returnReply {σ : Type} (w : World σ) (s : σ) (m : Message) :
    ((returnReply m).run w s).trace = [⟨.send m, (w.send s m).2.isFault⟩] := by
  simp only [returnReply, Prog.run]
  split <;> simp [Prog.run]

/-- The trace of the `catch` block. -/
@[simp]
theorem trace_catchBlock {σ : Type} (w : World σ) (s : σ) :
    (catchBlock.run w s).trace = [⟨.send internalErrorMsg, (w.send s internalErrorMsg).2.isFault⟩] := by
  simp only [catchBlock, Prog.run]
  split <;> simp [Prog.run]

/-- The trace of an awaited reply: the `catch` block runs when it faults. -/
@[simp]
theorem trace_awaitReply {σ : Type} (w : World σ) (s : σ) (m : Message) :
    ((awaitReply m).run w s).trace =
      ⟨.send m, (w.send s m).2.isFault⟩ ::
        (if (w.send s m).2.isFault then (catchBlock.run w (w.send s m).1).trace else []) := by
  simp only [awaitReply, Prog.run]
  split <;> simp_all [Prog.run, Outcome.isFault]

/-- How `return ctx.reply(m)` settles. -/
@[simp]
theorem completion_returnReply {σ : Type} (w : World σ) (s : σ) (m : Message) :
    ((returnReply m).run w s).completion =
      if (w.send s m).2.isFault then .rejected else .resolved := by
  simp only [returnReply, Prog.run]
  split <;> simp_all [Prog.run, Outcome.isFault]

/-- How the `catch` block settles. -/
@[simp]
theorem completion_catchBlock {σ : Type} (w : World σ) (s : σ) :
    (catchBlock.run w s).completion =
      if (w.send s internalErrorMsg).2.isFault then .unhandled else .resolved := by
  simp only [catchBlock, Prog.run]
  split <;> simp_all [Prog.run, Outcome.isFault]

/-- How an awaited reply settles. -/
@[simp]
theorem completion_awaitReply {σ : Type} (w : World σ) (s : σ) (m : Message) :
    ((awaitReply m).run w s).completion =
      if (w.send s m).2.isFault then (catchBlock.run w (w.send s m).1).completion
      else .resolved := by
  simp only [awaitReply, Prog.run]
  split <;> simp_all [Prog.run, Outcome.isFault]

/-- The state after `return ctx.reply(m)`. -/
@[simp]
theorem state_returnReply {σ : Type} (w : World σ) (s : σ) (m : Message) :
    ((returnReply m).run w s).state = (w.send s m).1 := by
  simp only [returnReply, Prog.run]
  split <;> simp_all [Prog.run]

/-- The state after the `catch` block. -/
@[simp]
theorem state_catchBlock {σ : Type} (w : World σ) (s : σ) :
    (catchBlock.run w s).state = (w.send s internalErrorMsg).1 := by
  simp only [catchBlock, Prog.run]
  split <;> simp_all [Prog.run]

/-- The state after an awaited reply. -/
@[simp]
theorem state_awaitReply {σ : Type} (w : World σ) (s : σ) (m : Message) :
    ((awaitReply m).run w s).state =
      if (w.send s m).2.isFault then (catchBlock.run w (w.send s m).1).state
      else (w.send s m).1 := by
  simp only [awaitReply, Prog.run]
  split <;> simp_all [Prog.run, Outcome.isFault]

/-- The returned boolean is `true` exactly when the response has no error. -/
theorem updateReturn_ok (res : UpdateResult) : updateReturn (.ok res) = .ok res.error.isNone := by
  cases res with
  | mk e => cases e <;> rfl

/-- A fault of the datastore call is passed on. -/
theorem updateReturn_fault : updateReturn .fault = .fault := rfl

/-- The run of `updateSessionStatus`: one update call, then the
continuation on the returned boolean or on the fault. -/
theorem run_updateSessionStatus {σ : Type} (w : World σ) (s : σ) (sid status : String)
    (managerId tgId : JsVal) (k : Outcome Bool → Prog) :
    (updateSessionStatus sid status managerId tgId k).run w s =
      ⟨((k (updateReturn (w.update s sid (updateDataOf status managerId tgId)).2)).run w
          (w.update s sid (updateDataOf status managerId tgId)).1).state,
        ⟨.update sid (updateDataOf status managerId tgId),
            (w.update s sid (updateDataOf status managerId tgId)).2.isFault⟩ ::
          ((k (updateReturn (w.update s sid (updateDataOf status managerId tgId)).2)).run w
            (w.update s sid (updateDataOf status managerId tgId)).1).trace,
        ((k (updateReturn (w.update s sid (updateDataOf status managerId tgId)).2)).run w
          (w.update s sid (updateDataOf status managerId tgId)).1).completion⟩ := by
  rfl

/-- No call, no update. -/
@[simp]
theorem updatesOf_nil : updatesOf [] = [] := rfl

/-- An update call is kept by `updatesOf`. -/
@[simp]
theorem updatesOf_update (sid : String) (d : UpdateData) (f : Bool) (t : List Step) :
    updatesOf (⟨.update sid d, f⟩ :: t) = (sid, d) :: updatesOf t := rfl

/-- A lookup is dropped by `updatesOf`. -/
@[simp]
theorem updatesOf_lookup (tid : Int) (f : Bool) (t : List Step) :
    updatesOf (⟨.lookup tid, f⟩ :: t) = updatesOf t := rfl

/-- A reply is dropped by `updatesOf`. -/
@[simp]
theorem updatesOf_send (m : Message) (f : Bool) (t : List Step) :
    updatesOf (⟨.send m, f⟩ :: t) = updatesOf t := rfl

/-- No call, no reply. -/
@[simp]
theorem sendsOf_nil : sendsOf [] = [] := rfl

/-- A reply is kept by `sendsOf`. -/
@[simp]
theorem sendsOf_send (m : Message) (f : Bool) (t : List Step) :
    sendsOf (⟨.send m, f⟩ :: t) = m :: sendsOf t := rfl

/-- A lookup is dropped by `sendsOf`. -/
@[simp]
theorem sendsOf_lookup (tid : Int) (f : Bool) (t : List Step) :
    sendsOf (⟨.lookup tid, f⟩ :: t) = sendsOf t := rfl

/-- An update call is dropped by `sendsOf`. -/
@[simp]
theorem sendsOf_update (sid : String) (d : UpdateData) (f : Bool) (t : List Step) :
    sendsOf (⟨.update sid d, f⟩ :: t) = sendsOf t := rfl

/-- A `return ctx.reply(m)` issues no update. -/
@[simp]
theorem updatesOf_returnReply {σ : Type} (w : World σ) (s : σ) (m : Message) :
    updatesOf ((returnReply m).run w s).trace = [] := by
  rw [trace_returnReply]; rfl

/-- The `catch` block issues no update. -/
@[simp]
theorem updatesOf_catchBlock {σ : Type} (w : World σ) (s : σ) :
    updatesOf (catchBlock.run w s).trace = [] := by
  rw [trace_catchBlock]; rfl

/-- An awaited reply issues no update. -/
@[simp]
theorem updatesOf_awaitReply {σ : Type} (w : World σ) (s : σ) (m : Message) :
    updatesOf ((awaitReply m).run w s).trace = [] := by
  rw [trace_awaitReply]
  split
  · rw [trace_catchBlock]; rfl
  · rfl

/-- The reply of `return ctx.reply(m)`. -/
@[simp]
theorem sendsOf_returnReply {σ : Type} (w : World σ) (s : σ) (m : Message) :
    sendsOf ((returnReply m).run w s).trace = [m] := by
  rw [trace_returnReply]; rfl

/-- The reply of the `catch` block. -/
@[simp]
theorem sendsOf_catchBlock {σ : Type} (w : World σ) (s : σ) :
    sendsOf (catchBlock.run w s).trace = [internalErrorMsg] := by
  rw [trace_catchBlock]; rfl

/-- The replies of an awaited reply: the internal-error reply follows when
the send faults. -/
@[simp]
theorem sendsOf_awaitReply {σ : Type} (w : World σ) (s : σ) (m : Message) :
    sendsOf ((awaitReply m).run w s).trace =
      if (w.send s m).2.isFault then [m, internalErrorMsg] else [m] := by
  rw [trace_awaitReply]
  split
  · rw [trace_catchBlock]; rfl
  · rfl

/-- The update of the two denial branches has `status` as only field. -/
theorem updateDataOf_failed : updateDataOf "failed" .null .undefined = ⟨"failed", none, none⟩ := rfl

/-- The update of the success branch. -/
theorem updateDataOf_success (managerId : JsVal) (tid : Int) :
    updateDataOf "success" managerId (.num tid) =
      ⟨"success", if managerId.truthy then some managerId else none,
        if tid ≠ 0 then some (.num tid) else none⟩ := by
  simp [updateDataOf, JsVal.truthy]

/-- The welcome message is sent as HTML. -/
theorem html_of_welcome (m : Manager) : (welcomeMsg m).html = true := rfl

/-- The admin-request template is sent as HTML. -/
theorem html_of_adminMsg (f : From) : (adminMsg f).html = true := rfl

/-- A text occurs in every text built around it. -/
theorem containsText_mid (a b c : String) : containsText (a ++ b ++ c) b :=
  ⟨a.data, c.data, by simp [String.data_append]⟩

/-- The run of the handler on a non-empty payload is the run of the `try`
block. -/
theorem handler_of_payload (ctx : Ctx) (p : String) (hp : ctx.payload = some p) (hne : p ≠ "") :
    handler ctx = tryBlock ctx p := by
  simp [handler, hp, hne]

/-- The updates issued by `updateSessionStatus` when its continuation
issues none. -/
theorem updatesOf_updateSessionStatus {σ : Type} (w : World σ) (s : σ) (sid status : String)
    (managerId tgId : JsVal) (k : Outcome Bool → Prog)
    (hk : ∀ o s', updatesOf ((k o).run w s').trace = []) :
    updatesOf ((updateSessionStatus sid status managerId tgId k).run w s).trace =
      [(sid, updateDataOf status managerId tgId)] := by
  rw [run_updateSessionStatus, updatesOf_update, hk]

/-- The session updates of the `try` block, as a function of the outcome of
the operator lookup. -/
theorem updatesOf_tryBlock {σ : Type} (w : World σ) (s : σ) (ctx : Ctx) (p : String) :
    updatesOf ((tryBlock ctx p).run w s).trace =
      match (w.lookup s ctx.sender.id).2 with
      | .fault => []
      | .ok res =>
        if lookupFault res.error then []
        else
          match res.data with
          | some m =>
            if isBlocked m then [(p, ⟨"failed", none, none⟩)]
            else [(p, updateDataOf "success" m.id (.num ctx.sender.id))]
          | none => [(p, ⟨"failed", none, none⟩)] := by
  simp only [tryBlock, run_lookup, updatesOf_lookup]
  cases (w.lookup s ctx.sender.id).2 with
  | fault => exact updatesOf_catchBlock _ _
  | ok res =>
    simp only
    split
    · exact updatesOf_returnReply _ _ _
    · cases res.data with
      | none =>
        simp only
        rw [updatesOf_updateSessionStatus, updateDataOf_failed]
        intro o s'
        cases o <;> simp only [updatesOf_awaitReply, updatesOf_catchBlock]
      | some m =>
        simp only
        split
        · rw [updatesOf_updateSessionStatus, updateDataOf_failed]
          intro o s'
          cases o <;> simp only [updatesOf_returnReply, updatesOf_catchBlock]
        · rw [updatesOf_updateSessionStatus]
          intro o s'
          cases o with
          | fault => simp only [updatesOf_catchBlock]
          | ok b => cases b <;> simp only [Bool.false_eq_true, if_false, if_true, updatesOf_awaitReply]

/-! ## C1 -/

/-- C1, as stated, fails: for the operator row with id `0` (lookup without
fault, status "active") the single session update carries no `manager_id`. -/
theorem C1_counterexample :
    ctx777.payload = some "sess-123" ∧ isBlocked managerZero = false ∧
    updatesOf ((handler ctx777).run
        (constWorld (.ok ⟨some managerZero, none⟩) (.ok ⟨none⟩) allDelivered) ()).trace
      = [("sess-123", ⟨"success", none, some (.num 777)⟩)] ∧
    updatesOf ((handler ctx777).run
        (constWorld (.ok ⟨some managerZero, none⟩) (.ok ⟨none⟩) allDelivered) ()).trace
      ≠ [("sess-123", ⟨"success", some managerZero.id, some (.num 777)⟩)] := by
  decide

/-- C1 (amended): for a start event with non-empty payload `p` whose operator
lookup returns a record `m` without lookup fault and with a status that is
neither "blocked" nor "banned", the handler issues exactly one session
update; it is addressed to session `p`, has status "success", carries
`manager_id = m.id` exactly when `m.id` is truthy and `telegram_id` equal to
the requester's id exactly when that id is not `0`.  In particular all three
fields are present when `m.id` is truthy and the requester's id is not `0`. -/
theorem C1_success_update {σ : Type} (w : World σ) (s : σ) (ctx : Ctx) (p : String)
    (m : Manager) (e : Option DbError)
    (hp : ctx.payload = some p) (hne : p ≠ "")
    (hl : (w.lookup s ctx.sender.id).2 = .ok ⟨some m, e⟩)
    (hf : lookupFault e = false) (hb : isBlocked m = false) :
    updatesOf ((handler ctx).run w s).trace =
        [(p, ⟨"success", if m.id.truthy then some m.id else none,
              if ctx.sender.id ≠ 0 then some (.num ctx.sender.id) else none⟩)] ∧
    (m.id.truthy = true → ctx.sender.id ≠ 0 →
      updatesOf ((handler ctx).run w s).trace =
        [(p, ⟨"success", some m.id, some (.num ctx.sender.id)⟩)]) := by
  have key : updatesOf ((handler ctx).run w s).trace =
        [(p, ⟨"success", if m.id.truthy then some m.id else none,
              if ctx.sender.id ≠ 0 then some (.num ctx.sender.id) else none⟩)] := by
    rw [handler_of_payload ctx p hp hne]
    simp only [tryBlock, run_lookup, hl, hf, hb, Bool.false_eq_true, if_false,
      run_updateSessionStatus, updatesOf_lookup, updatesOf_update, updateDataOf_success]
    cases updateReturn (w.update (w.lookup s ctx.sender.id).1 p
        ⟨"success", if m.id.truthy then some m.id else none,
          if ctx.sender.id ≠ 0 then some (.num ctx.sender.id) else none⟩).2 with
    | fault => simp only [updatesOf_catchBlock]
    | ok b =>
      cases b <;>
        simp only [Bool.false_eq_true, if_false, if_true, updatesOf_awaitReply]
  refine ⟨key, fun h1 h2 => ?_⟩
  rw [key]
  simp [h1, h2]

/-- C1 (amended) at requester 777 and operator `{id: 9, name: "Ana"}`. -/
theorem C1_success_update_witness :
    updatesOf ((handler ctx777).run
        (constWorld (.ok ⟨some managerAna, none⟩) (.ok ⟨none⟩) allDelivered) ()).trace
      = [("sess-123", ⟨"success", some (.num 9), some (.num 777)⟩)] :=
  (C1_success_update (constWorld (.ok ⟨some managerAna, none⟩) (.ok ⟨none⟩) allDelivered) ()
    ctx777 "sess-123" managerAna none rfl (by decide) rfl rfl (by decide)).2 rfl (by decide)

/-! ## C2 -/

/-- C2: for a start event with non-empty payload `p` whose operator lookup
returns a record with status "blocked" or "banned", the handler issues
exactly one session update, for session `p`, whose only field is
`status = "failed"` (no `manager_id`, no `telegram_id`); neither a welcome
message nor an admin-request template is sent; and the reply sent is the
access-denied message.  The datastore client answers an update with a
response object (a failure is an `error` value in it, lines 102-110); the
reply part is stated for a call that answers so, the other parts hold
whatever the call does. -/
theorem C2_blocked {σ : Type} (w : World σ) (s : σ) (ctx : Ctx) (p : String)
    (m : Manager) (e : Option DbError)
    (hp : ctx.payload = some p) (hne : p ≠ "")
    (hl : (w.lookup s ctx.sender.id).2 = .ok ⟨some m, e⟩)
    (hf : lookupFault e = false) (hb : isBlocked m = true) :
    updatesOf ((handler ctx).run w s).trace = [(p, ⟨"failed", none, none⟩)] ∧
    (∀ m', welcomeMsg m' ∉ sendsOf ((handler ctx).run w s).trace) ∧
    (∀ f, adminMsg f ∉ sendsOf ((handler ctx).run w s).trace) ∧
    ((w.update (w.lookup s ctx.sender.id).1 p ⟨"failed", none, none⟩).2.isFault = false →
      sendsOf ((handler ctx).run w s).trace = [accessDeniedMsg]) := by
  rw [handler_of_payload ctx p hp hne]
  simp only [tryBlock, run_lookup, hl, hf, hb, Bool.false_eq_true, if_false, if_true,
    run_updateSessionStatus, updatesOf_lookup, updatesOf_update, sendsOf_lookup, sendsOf_update,
    updateDataOf_failed]
  cases hu : (w.update (w.lookup s ctx.sender.id).1 p ⟨"failed", none, none⟩).2 with
  | fault =>
    simp only [updateReturn_fault, updatesOf_catchBlock, sendsOf_catchBlock, Outcome.isFault]
    refine ⟨trivial, ?_, ?_, ?_⟩
    · intro m' hm
      have := congrArg Message.html (List.mem_singleton.1 hm)
      simp [html_of_welcome, internalErrorMsg] at this
    · intro f hm
      have := congrArg Message.html (List.mem_singleton.1 hm)
      simp [html_of_adminMsg, internalErrorMsg] at this
    · intro h; simp at h
  | ok res =>
    simp only [updateReturn_ok, updatesOf_returnReply, sendsOf_returnReply]
    refine ⟨trivial, ?_, ?_, fun _ => trivial⟩
    · intro m' hm
      have := congrArg Message.html (List.mem_singleton.1 hm)
      simp [html_of_welcome, accessDeniedMsg] at this
    · intro f hm
      have := congrArg Message.html (List.mem_singleton.1 hm)
      simp [html_of_adminMsg, accessDeniedMsg] at this

/-- C2 at a blocked operator, every call succeeding. -/
theorem C2_blocked_witness :
    updatesOf ((handler ctx777).run
        (constWorld (.ok ⟨some managerBlocked, none⟩) (.ok ⟨none⟩) allDelivered) ()).trace
      = [("sess-123", ⟨"failed", none, none⟩)] ∧
    sendsOf ((handler ctx777).run
        (constWorld (.ok ⟨some managerBlocked, none⟩) (.ok ⟨none⟩) allDelivered) ()).trace
      = [accessDeniedMsg] :=
  have h := C2_blocked (constWorld (.ok ⟨some managerBlocked, none⟩) (.ok ⟨none⟩) allDelivered) ()
    ctx777 "sess-123" managerBlocked none rfl (by decide) rfl rfl (by decide)
  ⟨h.1, h.2.2.2 rfl⟩

/-! ## C3 -/

/-- C3: for a start event with non-empty payload `p` whose operator lookup
finds no record (no data; error absent or with code PGRST116), the handler
issues exactly one session update, for session `p`, whose only field is
`status = "failed"`; and whenever that update call returns (true or false)
the next call is the reply with the admin-request template, which contains
the requester's numeric id verbatim (the only call that can follow is the
internal-error reply, after the template's send faulted). -/
theorem C3_not_found {σ : Type} (w : World σ) (s : σ) (ctx : Ctx) (p : String)
    (e : Option DbError)
    (hp : ctx.payload = some p) (hne : p ≠ "")
    (hl : (w.lookup s ctx.sender.id).2 = .ok ⟨none, e⟩)
    (he : e = none ∨ e = some ⟨"PGRST116"⟩) :
    updatesOf ((handler ctx).run w s).trace = [(p, ⟨"failed", none, none⟩)] ∧
    containsText (adminMsg ctx.sender).text (toString ctx.sender.id) ∧
    ∀ ur, (w.update (w.lookup s ctx.sender.id).1 p ⟨"failed", none, none⟩).2 = .ok ur →
      (callsOf ((handler ctx).run w s).trace =
          [.lookup ctx.sender.id, .update p ⟨"failed", none, none⟩, .send (adminMsg ctx.sender)] ∨
       (⟨.send (adminMsg ctx.sender), true⟩ ∈ ((handler ctx).run w s).trace ∧
        callsOf ((handler ctx).run w s).trace =
          [.lookup ctx.sender.id, .update p ⟨"failed", none, none⟩, .send (adminMsg ctx.sender),
           .send internalErrorMsg])) := by
  have hf : lookupFault e = false := by
    rcases he with h | h <;> simp [h, lookupFault]
  rw [handler_of_payload ctx p hp hne]
  simp only [tryBlock, run_lookup, hl, hf, Bool.false_eq_true, if_false,
    run_updateSessionStatus, updatesOf_lookup, updatesOf_update, updateDataOf_failed]
  refine ⟨?_, containsText_mid _ _ _, ?_⟩
  · cases (w.update (w.lookup s ctx.sender.id).1 p ⟨"failed", none, none⟩).2 with
    | fault => simp only [updateReturn_fault, updatesOf_catchBlock]
    | ok res => simp only [updateReturn_ok, updatesOf_awaitReply]
  · intro ur hu
    simp only [hu, updateReturn_ok, trace_awaitReply, trace_catchBlock, callsOf, Outcome.isFault]
    cases hs : (w.send (w.update (w.lookup s ctx.sender.id).1 p ⟨"failed", none, none⟩).1
        (adminMsg ctx.sender)).2 <;> simp [Outcome.isFault]

/-- C3 at payload "sess-123", requester 555, no operator row: the update is
`{status: "failed"}` and the reply contains `555`. -/
theorem C3_not_found_witness :
    updatesOf ((handler ctx555).run (constWorld (.ok ⟨none, none⟩) (.ok ⟨none⟩) allDelivered) ()).trace
      = [("sess-123", ⟨"failed", none, none⟩)] ∧
    containsText (adminMsg ctx555.sender).text "555" ∧
    (callsOf ((handler ctx555).run
        (constWorld (.ok ⟨none, none⟩) (.ok ⟨none⟩) allDelivered) ()).trace =
          [.lookup 555, .update "sess-123" ⟨"failed", none, none⟩, .send (adminMsg ctx555.sender)] ∨
       (⟨.send (adminMsg ctx555.sender), true⟩ ∈ ((handler ctx555).run
          (constWorld (.ok ⟨none, none⟩) (.ok ⟨none⟩) allDelivered) ()).trace ∧
        callsOf ((handler ctx555).run
          (constWorld (.ok ⟨none, none⟩) (.ok ⟨none⟩) allDelivered) ()).trace =
          [.lookup 555, .update "sess-123" ⟨"failed", none, none⟩, .send (adminMsg ctx555.sender),
           .send internalErrorMsg])) :=
  have h := C3_not_found (constWorld (.ok ⟨none, none⟩) (.ok ⟨none⟩) allDelivered) ()
    ctx555 "sess-123" none rfl (by decide) rfl (Or.inl rfl)
  ⟨h.1, h.2.1, h.2.2 ⟨none⟩ rfl⟩

/-! ## C4 -/

/-- C4: for a start event with non-empty payload whose operator lookup
returns an error with a code other than PGRST116, whatever data comes with
it, the handler's calls are the lookup and the datastore-error reply: no
session update is issued. -/
theorem C4_lookup_error {σ : Type} (w : World σ) (s : σ) (ctx : Ctx) (p : String)
    (d : Option Manager) (err : DbError)
    (hp : ctx.payload = some p) (hne : p ≠ "")
    (hl : (w.lookup s ctx.sender.id).2 = .ok ⟨d, some err⟩)
    (hc : err.code ≠ "PGRST116") :
    callsOf ((handler ctx).run w s).trace = [.lookup ctx.sender.id, .send dbErrorMsg] ∧
    updatesOf ((handler ctx).run w s).trace = [] ∧
    sendsOf ((handler ctx).run w s).trace = [dbErrorMsg] := by
  have hf : lookupFault (some err) = true := by simp [lookupFault, hc]
  rw [handler_of_payload ctx p hp hne]
  simp only [tryBlock, run_lookup, hl, hf, if_true, trace_returnReply, callsOf, updatesOf_lookup,
    updatesOf_send, updatesOf_nil, sendsOf_lookup, sendsOf_send, sendsOf_nil, List.map]
  exact ⟨trivial, trivial, trivial⟩

/-- C4 at a lookup that returns an operator row together with a
query-cancelled error. -/
theorem C4_lookup_error_witness :
    callsOf ((handler ctx777).run
        (constWorld (.ok ⟨some managerAna, some ⟨"57014"⟩⟩) (.ok ⟨none⟩) allDelivered) ()).trace
      = [.lookup 777, .send dbErrorMsg] :=
  (C4_lookup_error (constWorld (.ok ⟨some managerAna, some ⟨"57014"⟩⟩) (.ok ⟨none⟩) allDelivered) ()
    ctx777 "sess-123" (some managerAna) ⟨"57014"⟩ rfl (by decide) rfl (by decide)).1

/-! ## C5 -/

/-- C5: for a start event with non-empty payload whose operator lookup
returns, without lookup fault, a record `m` that is neither blocked nor
banned, and whose session update call returns a response `ur`: if the update
returns true (`ur` has no error) the reply is the welcome message, which
contains the operator's display name; if it returns false (`ur` has an error)
the reply is the session-may-have-expired message and no welcome message is
sent.  In both cases the only reply that can follow is the internal-error
reply, after the first reply's send faulted. -/
theorem C5_reply {σ : Type} (w : World σ) (s : σ) (ctx : Ctx) (p : String)
    (m : Manager) (e : Option DbError) (ur : UpdateResult)
    (hp : ctx.payload = some p) (hne : p ≠ "")
    (hl : (w.lookup s ctx.sender.id).2 = .ok ⟨some m, e⟩)
    (hf : lookupFault e = false) (hb : isBlocked m = false)
    (hu : (w.update (w.lookup s ctx.sender.id).1 p
        (updateDataOf "success" m.id (.num ctx.sender.id))).2 = .ok ur) :
    (ur.error = none →
      (sendsOf ((handler ctx).run w s).trace = [welcomeMsg m] ∨
        (⟨.send (welcomeMsg m), true⟩ ∈ ((handler ctx).run w s).trace ∧
          sendsOf ((handler ctx).run w s).trace = [welcomeMsg m, internalErrorMsg])) ∧
      containsText (welcomeMsg m).text m.name.toStr) ∧
    (ur.error ≠ none →
      (sendsOf ((handler ctx).run w s).trace = [sessionExpiredMsg] ∨
        (⟨.send sessionExpiredMsg, true⟩ ∈ ((handler ctx).run w s).trace ∧
          sendsOf ((handler ctx).run w s).trace = [sessionExpiredMsg, internalErrorMsg])) ∧
      ∀ m', welcomeMsg m' ∉ sendsOf ((handler ctx).run w s).trace) := by
  rw [handler_of_payload ctx p hp hne]
  simp only [tryBlock, run_lookup, hl, hf, hb, Bool.false_eq_true, if_false,
    run_updateSessionStatus, sendsOf_lookup, sendsOf_update, hu, updateReturn_ok]
  constructor
  · intro hn
    simp only [hn, Option.isNone_none, if_true, sendsOf_awaitReply, trace_awaitReply]
    refine ⟨?_, containsText_mid _ _ _⟩
    cases (w.send (w.update (w.lookup s ctx.sender.id).1 p
        (updateDataOf "success" m.id (.num ctx.sender.id))).1 (welcomeMsg m)).2 <;>
      simp [Outcome.isFault]
  · intro hn
    obtain ⟨err, herr⟩ := Option.ne_none_iff_exists'.1 hn
    simp only [herr, Option.isNone_some, Bool.false_eq_true, if_false]
    constructor
    · simp only [trace_awaitReply]
      cases (w.send (w.update (w.lookup s ctx.sender.id).1 p
          (updateDataOf "success" m.id (.num ctx.sender.id))).1 sessionExpiredMsg).2 <;>
        simp [Outcome.isFault]
    · intro m' hm
      rw [sendsOf_awaitReply] at hm
      have hmem : welcomeMsg m' = sessionExpiredMsg ∨ welcomeMsg m' = internalErrorMsg := by
        split at hm
        · simpa using hm
        · exact Or.inl (by simpa using hm)
      rcases hmem with h | h <;> have := congrArg Message.html h <;>
        simp [html_of_welcome, sessionExpiredMsg, internalErrorMsg] at this

/-- C5 at requester 777, operator `{id: 9, name: "Ana", status: "active"}`,
update succeeding: the reply is the welcome message and contains "Ana". -/
theorem C5_reply_witness :
    (sendsOf ((handler ctx777).run
        (constWorld (.ok ⟨some managerAna, none⟩) (.ok ⟨none⟩) allDelivered) ()).trace
        = [welcomeMsg managerAna] ∨
      (⟨.send (welcomeMsg managerAna), true⟩ ∈ ((handler ctx777).run
        (constWorld (.ok ⟨some managerAna, none⟩) (.ok ⟨none⟩) allDelivered) ()).trace ∧
       sendsOf ((handler ctx777).run
        (constWorld (.ok ⟨some managerAna, none⟩) (.ok ⟨none⟩) allDelivered) ()).trace
        = [welcomeMsg managerAna, internalErrorMsg])) ∧
    containsText (welcomeMsg managerAna).text "Ana" :=
  (C5_reply (constWorld (.ok ⟨some managerAna, none⟩) (.ok ⟨none⟩) allDelivered) ()
    ctx777 "sess-123" managerAna none ⟨none⟩ rfl (by decide) rfl rfl (by decide) rfl).1 rfl

/-! ## C6 -/

/-- C6: for a start event whose payload is absent or the empty string, the
handler's only call is the reply with the generic greeting: there is no
operator lookup and no session update. -/
theorem C6_empty_payload {σ : Type} (w : World σ) (s : σ) (ctx : Ctx)
    (h : ctx.payload = none ∨ ctx.payload = some "") :
    callsOf ((handler ctx).run w s).trace = [.send greetingMsg] ∧
    lookupsOf ((handler ctx).run w s).trace = [] ∧
    updatesOf ((handler ctx).run w s).trace = [] ∧
    sendsOf ((handler ctx).run w s).trace = [greetingMsg] := by
  have hh : handler ctx = returnReply greetingMsg := by
    rcases h with h | h <;> simp [handler, h]
  rw [hh, trace_returnReply]
  exact ⟨rfl, rfl, rfl, rfl⟩

/-- C6 at an event without payload. -/
theorem C6_empty_payload_witness :
    callsOf ((handler ctxNoPayload).run
      (constWorld (.ok ⟨some managerAna, none⟩) (.ok ⟨none⟩) allDelivered) ()).trace
      = [.send greetingMsg] :=
  (C6_empty_payload (constWorld (.ok ⟨some managerAna, none⟩) (.ok ⟨none⟩) allDelivered) ()
    ctxNoPayload (Or.inl rfl)).1

/-! ## C7 -/

/-- The greeting is not one of the replies awaited inside the `try` block. -/
theorem not_awaited_greeting : ¬ awaitedInTry (.send greetingMsg) := by
  rintro (h | ⟨mg, h⟩ | ⟨f, h⟩)
  · exact absurd h (by decide)
  · exact absurd (congrArg Message.html h) (by simp [html_of_welcome, greetingMsg])
  · exact absurd (congrArg Message.html h) (by simp [html_of_adminMsg, greetingMsg])

/-- The datastore-error reply is not awaited inside the `try` block. -/
theorem not_awaited_dbError : ¬ awaitedInTry (.send dbErrorMsg) := by
  rintro (h | ⟨mg, h⟩ | ⟨f, h⟩)
  · exact absurd h (by decide)
  · exact absurd (congrArg Message.html h) (by simp [html_of_welcome, dbErrorMsg])
  · exact absurd (congrArg Message.html h) (by simp [html_of_adminMsg, dbErrorMsg])

/-- The access-denied reply is not awaited inside the `try` block. -/
theorem not_awaited_accessDenied : ¬ awaitedInTry (.send accessDeniedMsg) := by
  rintro (h | ⟨mg, h⟩ | ⟨f, h⟩)
  · exact absurd h (by decide)
  · exact absurd (congrArg Message.html h) (by simp [html_of_welcome, accessDeniedMsg])
  · exact absurd (congrArg Message.html h) (by simp [html_of_adminMsg, accessDeniedMsg])

/-- The `catch` block does not reject. -/
theorem catchBlock_not_rejected {σ : Type} (w : World σ) (s : σ) :
    (catchBlock.run w s).completion ≠ .rejected := by
  rw [completion_catchBlock]; split <;> simp

/-- The completion of `updateSessionStatus` is that of its continuation. -/
theorem completion_updateSessionStatus {σ : Type} (w : World σ) (s : σ) (sid status : String)
    (managerId tgId : JsVal) (k : Outcome Bool → Prog) :
    ((updateSessionStatus sid status managerId tgId k).run w s).completion =
      ((k (updateReturn (w.update s sid (updateDataOf status managerId tgId)).2)).run w
          (w.update s sid (updateDataOf status managerId tgId)).1).completion := rfl

/-- The trace of `updateSessionStatus`: the update call, then the trace of
the continuation. -/
theorem trace_updateSessionStatus {σ : Type} (w : World σ) (s : σ) (sid status : String)
    (managerId tgId : JsVal) (k : Outcome Bool → Prog) :
    ((updateSessionStatus sid status managerId tgId k).run w s).trace =
      ⟨.update sid (updateDataOf status managerId tgId),
          (w.update s sid (updateDataOf status managerId tgId)).2.isFault⟩ ::
        ((k (updateReturn (w.update s sid (updateDataOf status managerId tgId)).2)).run w
          (w.update s sid (updateDataOf status managerId tgId)).1).trace := rfl

/-- The datastore-error reply (line 41) and the access-denied reply (line 50)
are returned without `await`: when their send faults, the handler's promise
rejects and the `catch` block does not run. -/
theorem returned_reply_rejects :
    (((handler ctx777).run
        (constWorld (.ok ⟨none, some ⟨"57014"⟩⟩) (.ok ⟨none⟩) noneDelivered) ()).completion
        = .rejected ∧
      sendsOf ((handler ctx777).run
        (constWorld (.ok ⟨none, some ⟨"57014"⟩⟩) (.ok ⟨none⟩) noneDelivered) ()).trace
        = [dbErrorMsg]) ∧
    (((handler ctx777).run
        (constWorld (.ok ⟨some managerBlocked, none⟩) (.ok ⟨none⟩) noneDelivered) ()).completion
        = .rejected ∧
      sendsOf ((handler ctx777).run
        (constWorld (.ok ⟨some managerBlocked, none⟩) (.ok ⟨none⟩) noneDelivered) ()).trace
        = [accessDeniedMsg]) := by
  decide

/-- C7, as stated, fails: when the greeting of the empty-payload branch
faults, the handler's promise rejects (the fault reaches the caller) and no
internal-error reply is sent. -/
theorem C7_counterexample :
    (⟨.send greetingMsg, true⟩ : Step) ∈ ((handler ctxNoPayload).run
        (constWorld (.ok ⟨none, none⟩) (.ok ⟨none⟩) noneDelivered) ()).trace ∧
    ((handler ctxNoPayload).run
        (constWorld (.ok ⟨none, none⟩) (.ok ⟨none⟩) noneDelivered) ()).completion = .rejected ∧
    internalErrorMsg ∉ sendsOf ((handler ctxNoPayload).run
        (constWorld (.ok ⟨none, none⟩) (.ok ⟨none⟩) noneDelivered) ()).trace := by
  decide

/-- C7 (amended): a fault of the operator lookup, of the session update or
of one of the three replies awaited inside the `try` block (welcome,
session-may-have-expired, admin-request) is caught: the handler's promise
does not reject and the last reply-send it invokes is the internal-error
reply.  The greeting of the empty-payload branch lies outside the `try`
block: when it faults, the handler's promise rejects and no other reply is
sent. -/
theorem C7_caught {σ : Type} (w : World σ) (s : σ) (ctx : Ctx) :
    (∀ st ∈ ((handler ctx).run w s).trace, st.faulted = true → awaitedInTry st.call →
      ((handler ctx).run w s).completion ≠ .rejected ∧
      (sendsOf ((handler ctx).run w s).trace).getLast? = some internalErrorMsg) ∧
    ((ctx.payload = none ∨ ctx.payload = some "") →
      ⟨.send greetingMsg, true⟩ ∈ ((handler ctx).run w s).trace →
      ((handler ctx).run w s).completion = .rejected ∧
      sendsOf ((handler ctx).run w s).trace = [greetingMsg]) := by
  constructor
  · intro st hst hfault hcaught
    by_cases hempty : ctx.payload = none ∨ ctx.payload = some ""
    · have hh : handler ctx = returnReply greetingMsg := by
        rcases hempty with h | h <;> simp [handler, h]
      rw [hh, trace_returnReply, List.mem_singleton] at hst
      subst hst
      exact absurd hcaught not_awaited_greeting
    · obtain ⟨p, hp, hne⟩ : ∃ p, ctx.payload = some p ∧ p ≠ "" := by
        cases hpay : ctx.payload with
        | none => exact absurd (Or.inl hpay) hempty
        | some p => exact ⟨p, rfl, fun h => hempty (Or.inr (by rw [hpay, h]))⟩
      rw [handler_of_payload ctx p hp hne] at hst ⊢
      simp only [tryBlock, run_lookup] at hst ⊢
      cases hl : (w.lookup s ctx.sender.id).2 with
      | fault =>
        exact ⟨catchBlock_not_rejected _ _, by simp⟩
      | ok res =>
        simp only [hl] at hst ⊢
        have hlk : ¬ ((⟨.lookup ctx.sender.id, (Outcome.ok res).isFault⟩ : Step) = st) := by
          intro h; subst h; simp [Outcome.isFault] at hfault
        by_cases hf : lookupFault res.error = true
        · simp only [hf, if_true, trace_returnReply, List.mem_cons, List.mem_singleton,
            List.not_mem_nil, or_false] at hst
          rcases hst with h | h
          · exact absurd h.symm hlk
          · subst h; exact absurd hcaught not_awaited_dbError
        · simp only [hf, Bool.false_eq_true, if_false] at hst ⊢
          cases hd : res.data with
          | none =>
            simp only [hd, trace_updateSessionStatus, completion_updateSessionStatus] at hst ⊢
            cases hu : (w.update (w.lookup s ctx.sender.id).1 p
                (updateDataOf "failed" .null .undefined)).2 with
            | fault =>
              simp only [hu, updateReturn_fault]
              exact ⟨catchBlock_not_rejected _ _, by simp⟩
            | ok ur =>
              simp only [hu, updateReturn_ok, trace_awaitReply, completion_awaitReply] at hst ⊢
              cases hs : (w.send (w.update (w.lookup s ctx.sender.id).1 p
                  (updateDataOf "failed" .null .undefined)).1 (adminMsg ctx.sender)).2 with
              | fault =>
                simp only [Outcome.isFault, if_true]
                exact ⟨catchBlock_not_rejected _ _, by simp⟩
              | ok u =>
                simp only [hs, Outcome.isFault, Bool.false_eq_true, if_false, List.mem_cons,
                  List.not_mem_nil, or_false] at hst
                rcases hst with h | h | h
                · exact absurd h.symm hlk
                · subst h; simp at hfault
                · subst h; simp at hfault
          | some m =>
            simp only [hd] at hst ⊢
            by_cases hb : isBlocked m = true
            · simp only [hb, if_true, trace_updateSessionStatus,
                completion_updateSessionStatus] at hst ⊢
              cases hu : (w.update (w.lookup s ctx.sender.id).1 p
                  (updateDataOf "failed" .null .undefined)).2 with
              | fault =>
                simp only [hu, updateReturn_fault]
                exact ⟨catchBlock_not_rejected _ _, by simp⟩
              | ok ur =>
                simp only [hu, updateReturn_ok, trace_returnReply, Outcome.isFault,
                  List.mem_cons, List.not_mem_nil, or_false] at hst
                rcases hst with h | h | h
                · exact absurd h.symm hlk
                · subst h; simp at hfault
                · subst h; exact absurd hcaught not_awaited_accessDenied
            · simp only [hb, Bool.false_eq_true, if_false, trace_updateSessionStatus,
                completion_updateSessionStatus] at hst ⊢
              cases hu : (w.update (w.lookup s ctx.sender.id).1 p
                  (updateDataOf "success" m.id (.num ctx.sender.id))).2 with
              | fault =>
                simp only [hu, updateReturn_fault]
                exact ⟨catchBlock_not_rejected _ _, by simp⟩
              | ok ur =>
                simp only [hu, updateReturn_ok] at hst ⊢
                cases hi : ur.error.isNone with
                | true =>
                  simp only [hi, if_true, trace_awaitReply, completion_awaitReply] at hst ⊢
                  cases hs : (w.send (w.update (w.lookup s ctx.sender.id).1 p
                      (updateDataOf "success" m.id (.num ctx.sender.id))).1 (welcomeMsg m)).2 with
                  | fault =>
                    simp only [Outcome.isFault, if_true]
                    exact ⟨catchBlock_not_rejected _ _, by simp⟩
                  | ok u =>
                    simp only [hs, Outcome.isFault, Bool.false_eq_true, if_false, List.mem_cons,
                      List.not_mem_nil, or_false] at hst
                    rcases hst with h | h | h
                    · exact absurd h.symm hlk
                    · subst h; simp at hfault
                    · subst h; simp at hfault
                | false =>
                  simp only [hi, Bool.false_eq_true, if_false, trace_awaitReply,
                    completion_awaitReply] at hst ⊢
                  cases hs : (w.send (w.update (w.lookup s ctx.sender.id).1 p
                      (updateDataOf "success" m.id (.num ctx.sender.id))).1 sessionExpiredMsg).2 with
                  | fault =>
                    simp only [Outcome.isFault, if_true]
                    exact ⟨catchBlock_not_rejected _ _, by simp⟩
                  | ok u =>
                    simp only [hs, Outcome.isFault, Bool.false_eq_true, if_false, List.mem_cons,
                      List.not_mem_nil, or_false] at hst
                    rcases hst with h | h | h
                    · exact absurd h.symm hlk
                    · subst h; simp at hfault
                    · subst h; simp at hfault
  · intro hempty hmem
    have hh : handler ctx = returnReply greetingMsg := by
      rcases hempty with h | h <;> simp [handler, h]
    rw [hh] at hmem ⊢
    rw [trace_returnReply, List.mem_singleton] at hmem
    have hf : (w.send s greetingMsg).2.isFault = true := by
      have := congrArg Step.faulted hmem
      simpa using this.symm
    simp [hf]

/-- C7 (amended) at an operator lookup that faults: the handler resolves and
the internal-error reply is sent. -/
theorem C7_caught_witness :
    ((handler ctx777).run (constWorld .fault (.ok ⟨none⟩) allDelivered) ()).completion
      ≠ .rejected ∧
    (sendsOf ((handler ctx777).run
      (constWorld .fault (.ok ⟨none⟩) allDelivered) ()).trace).getLast? = some internalErrorMsg :=
  (C7_caught (constWorld .fault (.ok ⟨none⟩) allDelivered) () ctx777).1
    ⟨.lookup 777, true⟩ (by decide) rfl trivial

/-! ## C8 -/

/-- A lookup in front of a trace does not change its replies. -/
theorem singleReply_lookup (tid : Int) (f : Bool) (t : List Step) (h : singleReply t) :
    singleReply (⟨.lookup tid, f⟩ :: t) := by
  rcases h with ⟨m, h⟩ | ⟨m, h, hm⟩
  · exact Or.inl ⟨m, by simpa using h⟩
  · exact Or.inr ⟨m, by simpa using h, List.mem_cons_of_mem _ hm⟩

/-- An update call in front of a trace does not change its replies. -/
theorem singleReply_update (sid : String) (d : UpdateData) (f : Bool) (t : List Step)
    (h : singleReply t) : singleReply (⟨.update sid d, f⟩ :: t) := by
  rcases h with ⟨m, h⟩ | ⟨m, h, hm⟩
  · exact Or.inl ⟨m, by simpa using h⟩
  · exact Or.inr ⟨m, by simpa using h, List.mem_cons_of_mem _ hm⟩

/-- The `catch` block sends one reply. -/
theorem singleReply_catchBlock {σ : Type} (w : World σ) (s : σ) :
    singleReply (catchBlock.run w s).trace :=
  Or.inl ⟨internalErrorMsg, sendsOf_catchBlock w s⟩

/-- A returned reply is the only reply. -/
theorem singleReply_returnReply {σ : Type} (w : World σ) (s : σ) (m : Message) :
    singleReply ((returnReply m).run w s).trace :=
  Or.inl ⟨m, sendsOf_returnReply w s m⟩

/-- An awaited reply is the only reply unless its send faults. -/
theorem singleReply_awaitReply {σ : Type} (w : World σ) (s : σ) (m : Message) :
    singleReply ((awaitReply m).run w s).trace := by
  cases hs : (w.send s m).2 with
  | ok u => exact Or.inl ⟨m, by simp [hs, Outcome.isFault]⟩
  | fault =>
    refine Or.inr ⟨m, by simp [hs, Outcome.isFault], ?_⟩
    rw [trace_awaitReply, hs]
    exact List.mem_cons_self _ _

/-- Every run of the handler sends one reply, or one reply whose send
faulted followed by the internal-error reply. -/
theorem singleReply_handler {σ : Type} (w : World σ) (s : σ) (ctx : Ctx) :
    singleReply ((handler ctx).run w s).trace := by
  unfold handler
  split
  · exact singleReply_returnReply _ _ _
  · split
    · exact singleReply_returnReply _ _ _
    · simp only [tryBlock, run_lookup]
      apply singleReply_lookup
      cases (w.lookup s ctx.sender.id).2 with
      | fault => exact singleReply_catchBlock _ _
      | ok res =>
        simp only
        split
        · exact singleReply_returnReply _ _ _
        · split
          · split
            · rw [trace_updateSessionStatus]
              apply singleReply_update
              cases updateReturn (w.update (w.lookup s ctx.sender.id).1 _ _).2 with
              | fault => exact singleReply_catchBlock _ _
              | ok b => exact singleReply_returnReply _ _ _
            · rw [trace_updateSessionStatus]
              apply singleReply_update
              cases updateReturn (w.update (w.lookup s ctx.sender.id).1 _ _).2 with
              | fault => exact singleReply_catchBlock _ _
              | ok b =>
                simp only
                split <;> exact singleReply_awaitReply _ _ _
          · rw [trace_updateSessionStatus]
            apply singleReply_update
            cases updateReturn (w.update (w.lookup s ctx.sender.id).1 _ _).2 with
            | fault => exact singleReply_catchBlock _ _
            | ok b => exact singleReply_awaitReply _ _ _

/-- C8, as stated, fails: with a known, non-blocked operator and a
successful session update, a welcome reply whose send faults is followed by
the internal-error reply: reply-send is invoked twice. -/
theorem C8_counterexample :
    sendsOf ((handler ctx777).run
        (constWorld (.ok ⟨some managerAna, none⟩) (.ok ⟨none⟩) noneDelivered) ()).trace
      = [welcomeMsg managerAna, internalErrorMsg] ∧
    ¬ (sendsOf ((handler ctx777).run
        (constWorld (.ok ⟨some managerAna, none⟩) (.ok ⟨none⟩) noneDelivered) ()).trace).length ≤ 1 := by
  decide

/-- C8 (amended): for every start event and every outcome of the datastore
calls and reply-sends, the handler invokes reply-send at least once and at
most twice; exactly once when no reply-send faults; and when it invokes it
twice, the first send faulted and the second is the internal-error reply. -/
theorem C8_reply_count {σ : Type} (w : World σ) (s : σ) (ctx : Ctx) :
    1 ≤ (sendsOf ((handler ctx).run w s).trace).length ∧
    (sendsOf ((handler ctx).run w s).trace).length ≤ 2 ∧
    ((∀ st ∈ ((handler ctx).run w s).trace, ∀ m, st.call = .send m → st.faulted = false) →
      (sendsOf ((handler ctx).run w s).trace).length = 1) ∧
    (∀ m₁ m₂, sendsOf ((handler ctx).run w s).trace = [m₁, m₂] →
      m₂ = internalErrorMsg ∧ (⟨.send m₁, true⟩ : Step) ∈ ((handler ctx).run w s).trace) := by
  rcases singleReply_handler w s ctx with ⟨m, h⟩ | ⟨m, h, hm⟩
  · refine ⟨by simp [h], by simp [h], fun _ => by simp [h], fun m₁ m₂ h' => ?_⟩
    rw [h] at h'
    simp at h'
  · refine ⟨by simp [h], by simp [h], fun hall => ?_, fun m₁ m₂ h' => ?_⟩
    · have := hall _ hm m rfl
      simp at this
    · rw [h] at h'
      simp only [List.cons.injEq, and_true] at h'
      obtain ⟨h1, h2⟩ := h'
      subst h1; subst h2
      exact ⟨rfl, hm⟩

/-- C8 (amended) at a run in which every reply is delivered: one reply. -/
theorem C8_reply_count_witness :
    (sendsOf ((handler ctx777).run
      (constWorld (.ok ⟨some managerAna, none⟩) (.ok ⟨none⟩) allDelivered) ()).trace).length = 1 :=
  (C8_reply_count (constWorld (.ok ⟨some managerAna, none⟩) (.ok ⟨none⟩) allDelivered) ()
    ctx777).2.2.1 (fun st hst _ _ =>
      (by decide : ∀ st ∈ ((handler ctx777).run
        (constWorld (.ok ⟨some managerAna, none⟩) (.ok ⟨none⟩) allDelivered) ()).trace,
          st.faulted = false) st hst)

/-! ## C9 -/

/-- The state after `updateSessionStatus` is that of its continuation. -/
theorem state_updateSessionStatus {σ : Type} (w : World σ) (s : σ) (sid status : String)
    (managerId tgId : JsVal) (k : Outcome Bool → Prog) :
    ((updateSessionStatus sid status managerId tgId k).run w s).state =
      ((k (updateReturn (w.update s sid (updateDataOf status managerId tgId)).2)).run w
          (w.update s sid (updateDataOf status managerId tgId)).1).state := rfl

/-- Marking a session failed twice is marking it failed once. -/
theorem applyUpdate_failed_idem (p : String) (rows : List SessionRow) :
    applyUpdate p ⟨"failed", none, none⟩ (applyUpdate p ⟨"failed", none, none⟩ rows) =
      applyUpdate p ⟨"failed", none, none⟩ rows := by
  simp only [applyUpdate, List.map_map]
  apply List.map_congr_left
  intro row _
  by_cases h : row.id = p <;> simp [h]

/-- Over the session table, the handler run on a blocked operator leaves
the table with session `p` marked failed, and issues one update. -/
theorem blocked_on_store (ops : Int → Outcome LookupResult) (out : Message → Outcome Unit)
    (rows : List SessionRow) (ctx : Ctx) (p : String) (m : Manager) (e : Option DbError)
    (hp : ctx.payload = some p) (hne : p ≠ "")
    (hl : ops ctx.sender.id = .ok ⟨some m, e⟩)
    (hf : lookupFault e = false) (hb : isBlocked m = true) :
    ((handler ctx).run (storeWorld ops out) rows).state = applyUpdate p ⟨"failed", none, none⟩ rows ∧
    updatesOf ((handler ctx).run (storeWorld ops out) rows).trace = [(p, ⟨"failed", none, none⟩)] := by
  have hl' : ((storeWorld ops out).lookup rows ctx.sender.id).2 = .ok ⟨some m, e⟩ := hl
  rw [handler_of_payload ctx p hp hne]
  refine ⟨?_, by rw [updatesOf_tryBlock, hl']; simp only [hf, hb, Bool.false_eq_true, if_false, if_true]⟩
  simp only [tryBlock, run_lookup, hl', hf, hb, Bool.false_eq_true, if_false, if_true,
    state_updateSessionStatus, updateDataOf_failed]
  have hu : (storeWorld ops out).update ((storeWorld ops out).lookup rows ctx.sender.id).1 p
      ⟨"failed", none, none⟩ = (applyUpdate p ⟨"failed", none, none⟩ rows, .ok ⟨none⟩) := rfl
  simp only [hu, updateReturn_ok, state_returnReply]
  rfl

/-- C9: over an explicit session table, for every prior content of the
table (hence every prior state of the session row) and every start event
with non-empty payload `p` whose operator is blocked or banned: after the
handler runs, every row of session `p` has status "failed" (its other
columns and the other rows are unchanged, and the session row is still
there); running the handler a second time on the same event leaves the same
table as running it once; and the update issued is `{status: "failed"}` for
session `p` whatever the prior table. -/
theorem C9_blocked_idempotent (ops : Int → Outcome LookupResult) (out : Message → Outcome Unit)
    (rows : List SessionRow) (ctx : Ctx) (p : String) (m : Manager) (e : Option DbError)
    (hp : ctx.payload = some p) (hne : p ≠ "")
    (hl : ops ctx.sender.id = .ok ⟨some m, e⟩)
    (hf : lookupFault e = false) (hb : isBlocked m = true) :
    ((handler ctx).run (storeWorld ops out) rows).state =
      rows.map (fun row => if row.id = p then { row with status := "failed" } else row) ∧
    (∀ row ∈ ((handler ctx).run (storeWorld ops out) rows).state,
      row.id = p → row.status = "failed") ∧
    (∀ row ∈ rows, row.id = p →
      (⟨p, "failed", row.manager_id, row.telegram_id⟩ : SessionRow) ∈
        ((handler ctx).run (storeWorld ops out) rows).state) ∧
    ((handler ctx).run (storeWorld ops out)
        ((handler ctx).run (storeWorld ops out) rows).state).state =
      ((handler ctx).run (storeWorld ops out) rows).state ∧
    (∀ rows', updatesOf ((handler ctx).run (storeWorld ops out) rows').trace =
      updatesOf ((handler ctx).run (storeWorld ops out) rows).trace) ∧
    updatesOf ((handler ctx).run (storeWorld ops out) rows).trace = [(p, ⟨"failed", none, none⟩)] := by
  have h1 := fun r => blocked_on_store ops out r ctx p m e hp hne hl hf hb
  have hst : ((handler ctx).run (storeWorld ops out) rows).state =
      rows.map (fun row => if row.id = p then { row with status := "failed" } else row) := by
    rw [(h1 rows).1]; rfl
  refine ⟨hst, ?_, ?_, ?_, ?_, (h1 rows).2⟩
  · intro row hrow hid
    rw [hst, List.mem_map] at hrow
    obtain ⟨r0, _, hr0⟩ := hrow
    by_cases h : r0.id = p
    · rw [if_pos h] at hr0; rw [← hr0]
    · rw [if_neg h] at hr0; rw [hr0] at h; exact absurd hid h
  · intro row hrow hid
    rw [hst, List.mem_map]
    exact ⟨row, hrow, by rw [if_pos hid, hid]⟩
  · rw [(h1 _).1, (h1 rows).1, applyUpdate_failed_idem]
  · intro rows'
    rw [(h1 rows').2, (h1 rows).2]

/-- C9 at the example table: both rows of session `sess-123` end up failed,
the linked columns and the other session are kept. -/
theorem C9_blocked_idempotent_witness :
    ((handler ctx777).run (storeWorld (fun _ => .ok ⟨some managerBlocked, none⟩) allDelivered)
        rowsExample).state =
      [⟨"sess-123", "failed", none, none⟩, ⟨"sess-123", "failed", some (.num 9), some (.num 777)⟩,
       ⟨"sess-9", "pending", none, none⟩] :=
  (C9_blocked_idempotent (fun _ => .ok ⟨some managerBlocked, none⟩) allDelivered rowsExample
    ctx777 "sess-123" managerBlocked none rfl (by decide) rfl rfl (by decide)).1.trans (by decide)

/-! ## C10 -/

/-- The session updates of the handler: none on an empty payload, those of
the `try` block otherwise. -/
theorem updatesOf_handler_empty {σ : Type} (w : World σ) (s : σ) (ctx : Ctx)
    (h : ctx.payload = none ∨ ctx.payload = some "") :
    updatesOf ((handler ctx).run w s).trace = [] := by
  have hh : handler ctx = returnReply greetingMsg := by
    rcases h with h | h <;> simp [handler, h]
  rw [hh, updatesOf_returnReply]

/-- C10 (authorization soundness): for every start event and every outcome
of the datastore calls and reply-sends, the handler issues at most one
session update.  If it issues an update with status "success", then the
payload is non-empty and is the session the update is addressed to, the
operator lookup for the requester's id returned a record with no error other
than PGRST116, that record is neither "blocked" nor "banned", and a
`manager_id` in the update equals the record's id.  In every other case each
update issued has status "failed" and carries no `manager_id`. -/
theorem C10_authorization {σ : Type} (w : World σ) (s : σ) (ctx : Ctx) :
    (updatesOf ((handler ctx).run w s).trace).length ≤ 1 ∧
    (∀ u ∈ updatesOf ((handler ctx).run w s).trace, u.2.status = "success" →
      ∃ m, authorized w s ctx m ∧ ctx.payload = some u.1 ∧
        ∀ v, u.2.manager_id = some v → v = m.id) ∧
    ((¬ ∃ m, authorized w s ctx m) →
      ∀ u ∈ updatesOf ((handler ctx).run w s).trace,
        u.2.status = "failed" ∧ u.2.manager_id = none) := by
  by_cases hempty : ctx.payload = none ∨ ctx.payload = some ""
  · rw [updatesOf_handler_empty w s ctx hempty]
    simp
  · obtain ⟨p, hp, hne⟩ : ∃ p, ctx.payload = some p ∧ p ≠ "" := by
      cases hpay : ctx.payload with
      | none => exact absurd (Or.inl hpay) hempty
      | some p => exact ⟨p, rfl, fun h => hempty (Or.inr (by rw [hpay, h]))⟩
    rw [handler_of_payload ctx p hp hne, updatesOf_tryBlock]
    cases hl : (w.lookup s ctx.sender.id).2 with
    | fault => simp
    | ok res =>
      obtain ⟨d, e⟩ := res
      simp only
      by_cases hf : lookupFault e = true
      · simp [hf]
      · simp only [hf, Bool.false_eq_true, if_false]
        cases d with
        | none => simp
        | some m =>
          simp only
          by_cases hb : isBlocked m = true
          · simp [hb]
          · simp only [hb, Bool.false_eq_true, if_false, List.length_singleton, le_refl,
              List.mem_singleton, forall_eq, true_and]
            have hauth : authorized w s ctx m := by
              refine ⟨⟨p, hp, hne⟩, ⟨e, hl, ?_⟩, ?_, ?_⟩
              · intro err herr
                subst herr
                simpa [lookupFault] using hf
              · intro h; apply hb; simp [isBlocked, h]
              · intro h; apply hb; simp [isBlocked, h]
            refine ⟨fun _ => ⟨m, hauth, hp, ?_⟩, fun hno => absurd ⟨m, hauth⟩ hno⟩
            intro v hv
            simp only [updateDataOf] at hv
            split at hv
            · exact (Option.some.inj hv).symm
            · cases hv

/-- C10 at requester 777 and the operator `{id: 9, name: "Ana"}`: the
success update comes with an authorized operator row whose id is the
update's `manager_id`. -/
theorem C10_authorization_witness :
    ∃ m, authorized (constWorld (.ok ⟨some managerAna, none⟩) (.ok ⟨none⟩) allDelivered) ()
        ctx777 m ∧
      ctx777.payload = some "sess-123" ∧
      ∀ v, some (JsVal.num 9) = some v → v = m.id :=
  (C10_authorization (constWorld (.ok ⟨some managerAna, none⟩) (.ok ⟨none⟩) allDelivered) ()
    ctx777).2.1 ("sess-123", ⟨"success", some (.num 9), some (.num 777)⟩) (by decide) rfl

end AstroBot
